import Mathlib

/-!
Shallow embedding of `src/services/api/sora.ts`: the `SoraApiClient` class
(fields `baseUrl`, `token`; methods `setBaseUrl`, `login`, `checkHealth`,
`getStats`, `getTokens`) and the `soraConfigApi` object (`getConfig`,
`saveConfig`, `testConnection`).

The network is modelled by an `Env` record giving, per endpoint, the outcome
the browser `fetch` would produce (`none` standing for a thrown error such as
a network failure or timeout).  Every operation returns its result together
with the updated client state and the list of HTTP requests it issued, so
that call-count properties ("no network call is attempted") are statable.
-/

namespace Sora

/-- Stats payload returned by `GET /api/stats` (interface `SoraStats`). -/
structure SoraStats where
  total_tokens : Nat
  active_tokens : Nat
  total_images : Nat
  total_videos : Nat
  today_images : Nat
  today_videos : Nat
  deriving Repr, DecidableEq

/-- Token record returned by `GET /api/tokens` (interface `SoraToken`).
Only the fields are carried; the client never inspects them. -/
structure SoraToken where
  id : Nat
  email : String
  name : String
  is_active : Bool
  deriving Repr, DecidableEq

/-- Configuration record (interface `SoraConfig`). -/
structure SoraConfig where
  enabled : Bool
  baseUrl : String
  adminUser : String
  adminPass : String
  deriving Repr, DecidableEq

/-- Mutable fields of the `SoraApiClient` class: `private baseUrl: string = ''`
and `private token: string | null = null`. -/
structure ClientState where
  baseUrl : String
  token : Option String
  deriving Repr, DecidableEq

/-- The initial state of the module-level `soraApiClient` singleton. -/
def initialClient : ClientState := { baseUrl := "", token := none }

/-- Which of the four `fetch` call sites a request comes from. -/
inductive Endpoint
  | health
  | login
  | stats
  | tokens
  deriving Repr, DecidableEq

/-- One HTTP request as issued by the client: the full URL and the value of
the `Authorization: Bearer ...` header (`none` when the header is absent). -/
structure Request where
  ep : Endpoint
  url : String
  auth : Option String
  deriving Repr, DecidableEq

/-- Parsed JSON body of the login response: `data.success` and `data.token`.
JavaScript truthiness of the string `data.token` is `token ≠ ""`. -/
structure LoginData where
  success : Bool
  token : String
  deriving Repr, DecidableEq

/-- Network environment: what each endpoint's `fetch` would yield.
`none` at the outer layer models a thrown transport error (caught by the
source's `try`/`catch`); for `login`, the inner `Option` models
`response.json()` throwing on a malformed body; for `stats`/`tokens` the
pair is (`response.ok`, parsed body or `none` when `json()` throws). -/
structure Env where
  health : Option Bool
  login : Option (Option LoginData)
  stats : Option (Bool × Option SoraStats)
  tokens : Option (Bool × Option (List SoraToken))
  deriving Repr, DecidableEq

/-- `url.replace(/\/$/, '')` on the character list: the regex is anchored at
the end of the string and removes a single trailing `'/'` when present. -/
def dropTrailingSlashChars : List Char → List Char
  | [] => []
  | [c] => if c = '/' then [] else [c]
  | c :: c' :: rest => c :: dropTrailingSlashChars (c' :: rest)

/-- `setBaseUrl(url)`: `this.baseUrl = url.replace(/\/$/, '')`. -/
def setBaseUrl (s : ClientState) (url : String) : ClientState :=
  { s with baseUrl := ⟨dropTrailingSlashChars url.data⟩ }

/-- `login(username, password)`: POSTs to `/api/login`; on a parsed body with
truthy `success` and truthy `token`, stores the token and returns true;
otherwise (including thrown fetch or thrown `json()`) returns false. -/
def login (env : Env) (s : ClientState) (_username _password : String) :
    Bool × ClientState × List Request :=
  let req : Request := { ep := .login, url := s.baseUrl ++ "/api/login", auth := none }
  match env.login with
  | none => (false, s, [req])
  | some none => (false, s, [req])
  | some (some d) =>
      if d.success && d.token ≠ "" then (true, { s with token := some d.token }, [req])
      else (false, s, [req])

/-- `checkHealth()`: GETs the service root; returns `response.ok`, or false
when the fetch throws (network error or the 5-second timeout signal). -/
def checkHealth (env : Env) (s : ClientState) : Bool × List Request :=
  let req : Request := { ep := .health, url := s.baseUrl ++ "/", auth := none }
  match env.health with
  | none => (false, [req])
  | some ok => (ok, [req])

/-- JavaScript truthiness of `this.token : string | null`, as tested by the
guard `if (!this.token)`: falsy when null and when the empty string. -/
def tokenTruthy : Option String → Bool
  | none => false
  | some t => t != ""

/-- `getStats()`: the guard `if (!this.token) return null` short-circuits
with no fetch on a falsy token; otherwise GETs `/api/stats` with the bearer
header and returns the parsed body on a 2xx response, null on any failure. -/
def getStats (env : Env) (s : ClientState) :
    Option SoraStats × List Request :=
  if tokenTruthy s.token then
    let req : Request := { ep := .stats, url := s.baseUrl ++ "/api/stats", auth := s.token }
    match env.stats with
    | none => (none, [req])
    | some (ok, body) => (if ok then body else none, [req])
  else (none, [])

/-- `getTokens()`: same shape as `getStats` with `[]` as the sentinel. -/
def getTokens (env : Env) (s : ClientState) :
    List SoraToken × List Request :=
  if tokenTruthy s.token then
    let req : Request := { ep := .tokens, url := s.baseUrl ++ "/api/tokens", auth := s.token }
    match env.tokens with
    | none => ([], [req])
    | some (ok, body) => (if ok then body.getD [] else [], [req])
  else ([], [])

/-- Result record of `soraConfigApi.testConnection`. -/
structure TestResult where
  success : Bool
  message : String
  stats? : Option SoraStats
  deriving Repr, DecidableEq

/-- `soraConfigApi.testConnection(baseUrl, username, password)`: sets the base
URL on the shared client, then health probe, then login, then best-effort
stats, short-circuiting with an error message at the first failed gate. -/
def testConnection (env : Env) (s : ClientState)
    (baseUrl username password : String) :
    TestResult × ClientState × List Request :=
  let s0 := setBaseUrl s baseUrl
  let (healthy, c1) := checkHealth env s0
  if healthy then
    let (loggedIn, s1, c2) := login env s0 username password
    if loggedIn then
      let (stats, c3) := getStats env s1
      ({ success := true, message := "连接成功", stats? := stats }, s1, c1 ++ c2 ++ c3)
    else
      ({ success := false, message := "登录失败，请检查用户名和密码", stats? := none }, s1, c1 ++ c2)
  else
    ({ success := false, message := "Sora2API 服务不可用", stats? := none }, s0, c1)

/-- Outcome of reading `localStorage.getItem('sora_config')` followed by
`JSON.parse`: the key may be absent, hold a record that parses, or the read
or parse may throw (corrupted value or unavailable storage). -/
inductive StorageRead
  | missing
  | valid (cfg : SoraConfig)
  | corrupt
  deriving Repr, DecidableEq

/-- The hard-coded default record of `getConfig`. -/
def defaultConfig : SoraConfig :=
  { enabled := false
    baseUrl := "http://localhost:8000"
    adminUser := "admin"
    adminPass := "admin" }

/-- `soraConfigApi.getConfig()`: parsed stored record if present, the default
record if the key is absent, null if the read or parse throws. -/
def getConfig : StorageRead → Option SoraConfig
  | .missing => some defaultConfig
  | .valid cfg => some cfg
  | .corrupt => none

/-- `message.includes(sub)`-style containment, used to state the
"message contains ..." properties. -/
def containsSubstr (s sub : String) : Prop :=
  ∃ pre post, s = pre ++ sub ++ post

end Sora

namespace Sora

/-! ### Helper lemmas -/

lemma dropTrailingSlashChars_append_slash (l : List Char) :
    dropTrailingSlashChars (l ++ ['/']) = l := by
  induction l with
  | nil => rfl
  | cons c rest ih =>
    cases rest with
    | nil => rfl
    | cons c' rest' => simpa [dropTrailingSlashChars] using ih

lemma dropTrailingSlashChars_of_no_slash (l : List Char)
    (h : l.getLast? ≠ some '/') : dropTrailingSlashChars l = l := by
  induction l with
  | nil => rfl
  | cons c rest ih =>
    cases rest with
    | nil =>
      simp only [List.getLast?_singleton, ne_eq, Option.some.injEq] at h
      simp [dropTrailingSlashChars, h]
    | cons c' rest' =>
      rw [List.getLast?_cons_cons] at h
      simp [dropTrailingSlashChars, ih h]

lemma checkHealth_trace (env : Env) (s : ClientState) :
    (checkHealth env s).2 = [{ ep := .health, url := s.baseUrl ++ "/", auth := none }] := by
  unfold checkHealth
  cases env.health <;> rfl

lemma testConnection_of_health_false (env : Env) (s : ClientState) (b u p : String)
    (h : (checkHealth env (setBaseUrl s b)).1 = false) :
    testConnection env s b u p =
      ({ success := false, message := "Sora2API 服务不可用", stats? := none },
       setBaseUrl s b, (checkHealth env (setBaseUrl s b)).2) := by
  rcases hch : checkHealth env (setBaseUrl s b) with ⟨healthy, c1⟩
  rw [hch] at h
  simp only at h
  subst h
  simp [testConnection, hch]

lemma testConnection_of_login_false (env : Env) (s : ClientState) (b u p : String)
    (hh : (checkHealth env (setBaseUrl s b)).1 = true)
    (hl : (login env (setBaseUrl s b) u p).1 = false) :
    testConnection env s b u p =
      ({ success := false, message := "登录失败，请检查用户名和密码", stats? := none },
       (login env (setBaseUrl s b) u p).2.1,
       (checkHealth env (setBaseUrl s b)).2 ++ (login env (setBaseUrl s b) u p).2.2) := by
  rcases hch : checkHealth env (setBaseUrl s b) with ⟨healthy, c1⟩
  rcases hlg : login env (setBaseUrl s b) u p with ⟨loggedIn, s1, c2⟩
  rw [hch] at hh
  rw [hlg] at hl
  simp only at hh hl
  subst hh; subst hl
  simp [testConnection, hch, hlg]

lemma testConnection_of_login_true (env : Env) (s : ClientState) (b u p : String)
    (hh : (checkHealth env (setBaseUrl s b)).1 = true)
    (hl : (login env (setBaseUrl s b) u p).1 = true) :
    testConnection env s b u p =
      ({ success := true, message := "连接成功",
         stats? := (getStats env (login env (setBaseUrl s b) u p).2.1).1 },
       (login env (setBaseUrl s b) u p).2.1,
       (checkHealth env (setBaseUrl s b)).2 ++ (login env (setBaseUrl s b) u p).2.2
         ++ (getStats env (login env (setBaseUrl s b) u p).2.1).2) := by
  rcases hch : checkHealth env (setBaseUrl s b) with ⟨healthy, c1⟩
  rcases hlg : login env (setBaseUrl s b) u p with ⟨loggedIn, s1, c2⟩
  rcases hst : getStats env s1 with ⟨st, c3⟩
  rw [hch] at hh
  rw [hlg] at hl
  simp only at hh hl
  subst hh; subst hl
  simp [testConnection, hch, hlg, hst]

lemma login_trace (env : Env) (s : ClientState) (u p : String) :
    (login env s u p).2.2 =
      [{ ep := .login, url := s.baseUrl ++ "/api/login", auth := none }] := by
  cases henv : env.login with
  | none => simp [login, henv]
  | some o =>
    cases o with
    | none => simp [login, henv]
    | some d =>
      simp only [login, henv]
      split <;> rfl

lemma getStats_trace_of_token (env : Env) (s : ClientState) (t : String)
    (h : s.token = some t) (ht : t ≠ "") :
    (getStats env s).2 = [{ ep := .stats, url := s.baseUrl ++ "/api/stats", auth := some t }] := by
  have hc : tokenTruthy (some t) = true := by simp [tokenTruthy, ht]
  unfold getStats
  rw [h, if_pos hc]
  cases hs : env.stats with
  | none => rfl
  | some r => rcases r with ⟨ok, body⟩; rfl

end Sora

namespace Sora

/-! ### Concrete environments used by the witnesses -/

/-- Every endpoint's fetch throws. -/
def envAllDown : Env := { health := none, login := none, stats := none, tokens := none }

/-- Healthy service, login rejected, everything else down. -/
def envLoginRejected : Env :=
  { health := some true, login := some (some { success := false, token := "tok" }),
    stats := none, tokens := none }

/-- Healthy service, login accepted, stats fetch throws. -/
def envStatsDown : Env :=
  { health := some true, login := some (some { success := true, token := "tok" }),
    stats := none, tokens := none }

/-! ### Claim theorems -/

/-- C1: whenever the health probe fails, `testConnection` returns
`success = false` with a message containing "不可用", and neither the login
endpoint nor the stats endpoint is ever contacted. -/
theorem testConnection_health_fail (env : Env) (s : ClientState) (b u p : String)
    (h : (checkHealth env (setBaseUrl s b)).1 = false) :
    (testConnection env s b u p).1.success = false ∧
    containsSubstr (testConnection env s b u p).1.message "不可用" ∧
    ∀ q ∈ (testConnection env s b u p).2.2,
      q.ep ≠ Endpoint.login ∧ q.ep ≠ Endpoint.stats := by
  rw [testConnection_of_health_false env s b u p h]
  refine ⟨rfl, ⟨"Sora2API 服务", "", rfl⟩, ?_⟩
  rw [checkHealth_trace]
  intro q hq
  rw [List.mem_singleton] at hq
  subst hq
  exact ⟨by simp, by simp⟩

/-- C1 witness: with every fetch throwing, the probe fails and the theorem
applies at a concrete input. -/
theorem testConnection_health_fail_witness :
    (checkHealth envAllDown (setBaseUrl initialClient "http://x/")).1 = false ∧
    ((testConnection envAllDown initialClient "http://x/" "u" "p").1.success = false ∧
     containsSubstr (testConnection envAllDown initialClient "http://x/" "u" "p").1.message "不可用" ∧
     ∀ q ∈ (testConnection envAllDown initialClient "http://x/" "u" "p").2.2,
       q.ep ≠ Endpoint.login ∧ q.ep ≠ Endpoint.stats) :=
  ⟨by decide, testConnection_health_fail envAllDown initialClient "http://x/" "u" "p" (by decide)⟩

/-- C2: when the health probe succeeds but login fails, `testConnection`
returns `success = false` with a message containing "登录失败", no stats
payload, and the stats endpoint is never contacted. -/
theorem testConnection_login_fail (env : Env) (s : ClientState) (b u p : String)
    (hh : (checkHealth env (setBaseUrl s b)).1 = true)
    (hl : (login env (setBaseUrl s b) u p).1 = false) :
    (testConnection env s b u p).1.success = false ∧
    containsSubstr (testConnection env s b u p).1.message "登录失败" ∧
    (testConnection env s b u p).1.stats? = none ∧
    ∀ q ∈ (testConnection env s b u p).2.2, q.ep ≠ Endpoint.stats := by
  rw [testConnection_of_login_false env s b u p hh hl]
  refine ⟨rfl, ⟨"", "，请检查用户名和密码", rfl⟩, rfl, ?_⟩
  rw [checkHealth_trace, login_trace]
  intro q hq
  rw [List.mem_append, List.mem_singleton, List.mem_singleton] at hq
  rcases hq with hq | hq <;> subst hq <;> simp

/-- C2 witness: healthy endpoint, rejected login, at a concrete input. -/
theorem testConnection_login_fail_witness :
    (checkHealth envLoginRejected (setBaseUrl initialClient "http://x")).1 = true ∧
    (login envLoginRejected (setBaseUrl initialClient "http://x") "u" "p").1 = false ∧
    ((testConnection envLoginRejected initialClient "http://x" "u" "p").1.success = false ∧
     containsSubstr (testConnection envLoginRejected initialClient "http://x" "u" "p").1.message "登录失败" ∧
     (testConnection envLoginRejected initialClient "http://x" "u" "p").1.stats? = none ∧
     ∀ q ∈ (testConnection envLoginRejected initialClient "http://x" "u" "p").2.2,
       q.ep ≠ Endpoint.stats) :=
  ⟨by decide, by decide,
   testConnection_login_fail envLoginRejected initialClient "http://x" "u" "p"
     (by decide) (by decide)⟩

/-- C3: when health probe and login both succeed, the result has
`success = true` even when the subsequent stats call fails; the stats field
is then absent rather than the whole result being an error. -/
theorem testConnection_stats_best_effort (env : Env) (s : ClientState) (b u p : String)
    (hh : (checkHealth env (setBaseUrl s b)).1 = true)
    (hl : (login env (setBaseUrl s b) u p).1 = true)
    (hs : (getStats env (login env (setBaseUrl s b) u p).2.1).1 = none) :
    (testConnection env s b u p).1.success = true ∧
    (testConnection env s b u p).1.stats? = none := by
  rw [testConnection_of_login_true env s b u p hh hl]
  exact ⟨rfl, hs⟩

/-- C3 witness: healthy endpoint, accepted login, stats fetch throwing. -/
theorem testConnection_stats_best_effort_witness :
    (checkHealth envStatsDown (setBaseUrl initialClient "http://x")).1 = true ∧
    (login envStatsDown (setBaseUrl initialClient "http://x") "u" "p").1 = true ∧
    (getStats envStatsDown (login envStatsDown (setBaseUrl initialClient "http://x") "u" "p").2.1).1 = none ∧
    ((testConnection envStatsDown initialClient "http://x" "u" "p").1.success = true ∧
     (testConnection envStatsDown initialClient "http://x" "u" "p").1.stats? = none) :=
  ⟨by decide, by decide, by decide,
   testConnection_stats_best_effort envStatsDown initialClient "http://x" "u" "p"
     (by decide) (by decide) (by decide)⟩

/-- C4: with no session credential held, `getStats` returns null and
`getTokens` returns the empty list, and neither issues any request. -/
theorem no_credential_short_circuit (env : Env) (s : ClientState)
    (h : s.token = none) :
    getStats env s = (none, []) ∧ getTokens env s = ([], []) := by
  constructor
  · simp [getStats, h, tokenTruthy]
  · simp [getTokens, h, tokenTruthy]

/-- C4 witness: the fresh singleton client holds no credential. -/
theorem no_credential_short_circuit_witness :
    initialClient.token = none ∧
    (getStats envAllDown initialClient = (none, []) ∧
     getTokens envAllDown initialClient = ([], [])) :=
  ⟨rfl, no_credential_short_circuit envAllDown initialClient rfl⟩

/-- C5: a failed login leaves the whole client state — in particular the
stored session credential — exactly unchanged; the credential is mutated
only when login returns true. -/
theorem login_failure_preserves_state (env : Env) (s : ClientState) (u p : String) :
    ((login env s u p).1 = false → (login env s u p).2.1 = s) ∧
    ((login env s u p).2.1.token ≠ s.token → (login env s u p).1 = true) := by
  cases henv : env.login with
  | none =>
    have hL : login env s u p =
        (false, s, [{ ep := .login, url := s.baseUrl ++ "/api/login", auth := none }]) := by
      simp [login, henv]
    rw [hL]
    exact ⟨fun _ => rfl, fun h => absurd rfl h⟩
  | some o =>
    cases o with
    | none =>
      have hL : login env s u p =
          (false, s, [{ ep := .login, url := s.baseUrl ++ "/api/login", auth := none }]) := by
        simp [login, henv]
      rw [hL]
      exact ⟨fun _ => rfl, fun h => absurd rfl h⟩
    | some d =>
      cases hsucc : d.success with
      | false =>
        have hL : login env s u p =
            (false, s, [{ ep := .login, url := s.baseUrl ++ "/api/login", auth := none }]) := by
          simp [login, henv, hsucc]
        rw [hL]
        exact ⟨fun _ => rfl, fun h => absurd rfl h⟩
      | true =>
        by_cases ht : d.token = ""
        · have hL : login env s u p =
              (false, s, [{ ep := .login, url := s.baseUrl ++ "/api/login", auth := none }]) := by
            simp [login, henv, hsucc, ht]
          rw [hL]
          exact ⟨fun _ => rfl, fun h => absurd rfl h⟩
        · have hL : login env s u p =
              (true, { s with token := some d.token },
               [{ ep := .login, url := s.baseUrl ++ "/api/login", auth := none }]) := by
            simp [login, henv, hsucc, ht]
          rw [hL]
          exact ⟨(fun h => nomatch h), fun _ => rfl⟩

/-- C5 witness: a client already holding a credential keeps it through a
rejected login attempt. -/
theorem login_failure_preserves_state_witness :
    ((login envLoginRejected { baseUrl := "http://x", token := some "old" } "u" "p").1 = false →
      (login envLoginRejected { baseUrl := "http://x", token := some "old" } "u" "p").2.1 =
        { baseUrl := "http://x", token := some "old" }) ∧
    ((login envLoginRejected { baseUrl := "http://x", token := some "old" } "u" "p").2.1.token ≠
        some "old" →
      (login envLoginRejected { baseUrl := "http://x", token := some "old" } "u" "p").1 = true) :=
  login_failure_preserves_state envLoginRejected
    { baseUrl := "http://x", token := some "old" } "u" "p"

end Sora

namespace Sora

/-- C6: `setBaseUrl` stores the URL with exactly one trailing slash removed
when one is present (changing no other characters, so stripping `pre ++ "/"`
yields `pre` whatever `pre` is), stores it verbatim otherwise, and leaves
the session credential untouched. -/
theorem setBaseUrl_strips_one_slash (s : ClientState) (pre u : String) :
    (setBaseUrl s (pre ++ "/")).baseUrl = pre ∧
    (u.data.getLast? ≠ some '/' → (setBaseUrl s u).baseUrl = u) ∧
    (setBaseUrl s u).token = s.token := by
  refine ⟨?_, ?_, rfl⟩
  · show (⟨dropTrailingSlashChars (pre ++ "/").data⟩ : String) = pre
    rw [String.data_append]
    have hs : ("/" : String).data = ['/'] := rfl
    rw [hs, dropTrailingSlashChars_append_slash]
  · intro h
    show (⟨dropTrailingSlashChars u.data⟩ : String) = u
    rw [dropTrailingSlashChars_of_no_slash u.data h]

/-- C6 witness: the two documented examples, on a client holding a
credential. -/
theorem setBaseUrl_strips_one_slash_witness :
    ((setBaseUrl { baseUrl := "a", token := some "t" } ("http://x/" ++ "/")).baseUrl = "http://x/" ∧
     ("http://x".data.getLast? ≠ some '/' →
       (setBaseUrl { baseUrl := "a", token := some "t" } "http://x").baseUrl = "http://x") ∧
     (setBaseUrl { baseUrl := "a", token := some "t" } "http://x").token = some "t") ∧
    "http://x".data.getLast? ≠ some '/' :=
  ⟨setBaseUrl_strips_one_slash { baseUrl := "a", token := some "t" } "http://x/" "http://x",
   by decide⟩

/-- C7 counterexample: at a concrete client holding credential `"tok"`,
`setBaseUrl` to a different URL leaves the credential stored, and the next
`getStats` issues an authenticated request — it does not behave as if no
credential were held (which would return `(none, [])` with no request). -/
theorem setBaseUrl_no_invalidation_counterexample :
    (setBaseUrl { baseUrl := "http://a", token := some "tok" } "http://b").token = some "tok" ∧
    (getStats envAllDown
        (setBaseUrl { baseUrl := "http://a", token := some "tok" } "http://b")).2 =
      [{ ep := .stats, url := "http://b/api/stats", auth := some "tok" }] := by
  constructor
  · rfl
  · rfl

/-- C7 amended: changing the base URL does NOT invalidate the stored session
credential — the credential field is left unchanged; and for a truthy
(non-empty) stored credential, a subsequent `getStats` without a new login
still issues an authenticated request, pairing the old credential with the
new base URL. -/
theorem setBaseUrl_keeps_credential (env : Env) (s : ClientState) (url t : String)
    (h : s.token = some t) (ht : t ≠ "") :
    (setBaseUrl s url).token = some t ∧
    (getStats env (setBaseUrl s url)).2 =
      [{ ep := .stats, url := (setBaseUrl s url).baseUrl ++ "/api/stats",
         auth := some t }] := by
  have htok : (setBaseUrl s url).token = some t := h
  exact ⟨htok, getStats_trace_of_token env (setBaseUrl s url) t htok ht⟩

/-- C7 amended witness: concrete credential-holding client, concrete URLs. -/
theorem setBaseUrl_keeps_credential_witness :
    ({ baseUrl := "http://a", token := some "tok" } : ClientState).token = some "tok" ∧
    ("tok" : String) ≠ "" ∧
    ((setBaseUrl { baseUrl := "http://a", token := some "tok" } "http://b/").token = some "tok" ∧
     (getStats envAllDown (setBaseUrl { baseUrl := "http://a", token := some "tok" } "http://b/")).2 =
       [{ ep := .stats,
          url := (setBaseUrl { baseUrl := "http://a", token := some "tok" } "http://b/").baseUrl
            ++ "/api/stats",
          auth := some "tok" }]) :=
  ⟨rfl, by decide, setBaseUrl_keeps_credential envAllDown
    { baseUrl := "http://a", token := some "tok" } "http://b/" "tok" rfl (by decide)⟩

/-- C8: `getConfig` on uninitialized storage returns the documented default
record rather than null, and returns null exactly when the storage read or
parse itself fails. -/
theorem getConfig_default_on_empty (r : StorageRead) :
    getConfig .missing =
      some { enabled := false, baseUrl := "http://localhost:8000",
             adminUser := "admin", adminPass := "admin" } ∧
    (getConfig r = none ↔ r = .corrupt) := by
  refine ⟨rfl, ?_⟩
  cases r <;> simp [getConfig, defaultConfig]

/-- C8 witness: instantiated at a corrupted read. -/
theorem getConfig_default_on_empty_witness :
    getConfig .missing =
      some { enabled := false, baseUrl := "http://localhost:8000",
             adminUser := "admin", adminPass := "admin" } ∧
    (getConfig .corrupt = none ↔ StorageRead.corrupt = .corrupt) :=
  getConfig_default_on_empty .corrupt

/-- C9: `testConnection` mutates the shared client's base URL to the
normalized argument before the health probe is issued (the probe targets the
new URL), the mutation persists although the result is `success = false`,
a previously stored credential also survives, and any later `getStats`
pairs that old credential with the new base URL.  A credential stored by an
earlier successful `login` is necessarily truthy (non-empty), which is the
`t ≠ ""` hypothesis. -/
theorem testConnection_shared_state (env : Env) (s : ClientState) (b u p t : String)
    (hh : (checkHealth env (setBaseUrl s b)).1 = false)
    (ht : s.token = some t) (hne : t ≠ "") :
    (testConnection env s b u p).1.success = false ∧
    (testConnection env s b u p).2.2 =
      [{ ep := .health, url := (⟨dropTrailingSlashChars b.data⟩ : String) ++ "/",
         auth := none }] ∧
    (testConnection env s b u p).2.1.baseUrl = (⟨dropTrailingSlashChars b.data⟩ : String) ∧
    (testConnection env s b u p).2.1.token = some t ∧
    ∀ env2 : Env, (getStats env2 (testConnection env s b u p).2.1).2 =
      [{ ep := .stats, url := (⟨dropTrailingSlashChars b.data⟩ : String) ++ "/api/stats",
         auth := some t }] := by
  rw [testConnection_of_health_false env s b u p hh]
  refine ⟨rfl, ?_, rfl, ht, ?_⟩
  · rw [checkHealth_trace]; rfl
  · intro env2
    exact getStats_trace_of_token env2 (setBaseUrl s b) t ht hne

/-- C9 witness: a credential-holding client, an unreachable new base URL. -/
theorem testConnection_shared_state_witness :
    (checkHealth envAllDown
        (setBaseUrl { baseUrl := "http://old", token := some "tok" } "http://new/")).1 = false ∧
    ({ baseUrl := "http://old", token := some "tok" } : ClientState).token = some "tok" ∧
    ("tok" : String) ≠ "" ∧
    ((testConnection envAllDown { baseUrl := "http://old", token := some "tok" }
        "http://new/" "u" "p").1.success = false ∧
     (testConnection envAllDown { baseUrl := "http://old", token := some "tok" }
        "http://new/" "u" "p").2.2 =
       [{ ep := .health, url := (⟨dropTrailingSlashChars "http://new/".data⟩ : String) ++ "/",
          auth := none }] ∧
     (testConnection envAllDown { baseUrl := "http://old", token := some "tok" }
        "http://new/" "u" "p").2.1.baseUrl = (⟨dropTrailingSlashChars "http://new/".data⟩ : String) ∧
     (testConnection envAllDown { baseUrl := "http://old", token := some "tok" }
        "http://new/" "u" "p").2.1.token = some "tok" ∧
     ∀ env2 : Env, (getStats env2 (testConnection envAllDown
        { baseUrl := "http://old", token := some "tok" } "http://new/" "u" "p").2.1).2 =
       [{ ep := .stats,
          url := (⟨dropTrailingSlashChars "http://new/".data⟩ : String) ++ "/api/stats",
          auth := some "tok" }]) :=
  ⟨by decide, rfl, by decide,
   testConnection_shared_state envAllDown { baseUrl := "http://old", token := some "tok" }
     "http://new/" "u" "p" "tok" (by decide) rfl (by decide)⟩

/-- C10: when the login response body parses as JSON, login stores the
credential and returns true exactly when both the success flag and the token
string are truthy; on a falsy outcome (e.g. a truthy success with an empty
token) it returns false and mutates nothing. -/
theorem login_truthiness (env : Env) (s : ClientState) (u p : String) (d : LoginData)
    (h : env.login = some (some d)) :
    (((login env s u p).1 = true ∧ (login env s u p).2.1.token = some d.token) ↔
      (d.success = true ∧ d.token ≠ "")) ∧
    ((login env s u p).1 = false → (login env s u p).2.1 = s) := by
  cases hsucc : d.success with
  | false =>
    have hL : login env s u p =
        (false, s, [{ ep := .login, url := s.baseUrl ++ "/api/login", auth := none }]) := by
      simp [login, h, hsucc]
    rw [hL]
    exact ⟨by simp [hsucc], fun _ => rfl⟩
  | true =>
    by_cases ht : d.token = ""
    · have hL : login env s u p =
          (false, s, [{ ep := .login, url := s.baseUrl ++ "/api/login", auth := none }]) := by
        simp [login, h, hsucc, ht]
      rw [hL]
      exact ⟨by simp [ht], fun _ => rfl⟩
    · have hL : login env s u p =
          (true, { s with token := some d.token },
           [{ ep := .login, url := s.baseUrl ++ "/api/login", auth := none }]) := by
        simp [login, h, hsucc, ht]
      rw [hL]
      exact ⟨by simp [hsucc, ht], (fun hf => nomatch hf)⟩

/-- The login endpoint answers `success: true` with an empty token string. -/
def envEmptyToken : Env :=
  { health := some true, login := some (some { success := true, token := "" }),
    stats := none, tokens := none }

/-- C10 witness: `success: true` with `token: ""` makes login return false
and store nothing. -/
theorem login_truthiness_witness :
    envEmptyToken.login = some (some { success := true, token := "" }) ∧
    ((((login envEmptyToken initialClient "u" "p").1 = true ∧
       (login envEmptyToken initialClient "u" "p").2.1.token = some "") ↔
      ((true : Bool) = true ∧ ("" : String) ≠ "")) ∧
     ((login envEmptyToken initialClient "u" "p").1 = false →
       (login envEmptyToken initialClient "u" "p").2.1 = initialClient)) :=
  ⟨rfl, login_truthiness envEmptyToken initialClient "u" "p"
    { success := true, token := "" } rfl⟩

end Sora
